import Mathlib

/-!
Verification development for the LevelUp Leo gamification bot.

The definitions below are shallow embeddings of the Python source:
* `calculate_xp_for_level`, `calculate_level_from_xp` embed
  `LevelSystem.calculate_xp_for_level` / `calculate_level_from_xp` in `bot.py`;
* `xp_for_level`, `calculate_level` embed `LevelSystem.xp_for_level` /
  `LevelSystem.calculate_level` in `level_system.py`;
* `User`, `check_and_award`, `check_all_achievements`, `validate_title`,
  `buy_title`, `buy_vip`, `check_rate_limit`, `process_message`, `daily`,
  `get_display_name` embed the corresponding classes of `bot.py`;
* `shop_items`, `remove_coins`, `process_purchase` embed `EconomySystem`
  in `economy.py`.

Python integers are unbounded, so numbers are modelled as `Int`.  Python
`while` loops are modelled with an explicit fuel argument; the fuel is always
large enough, which the theorems establish (`levelLoopFuel_upper` shows the
loop exits through its guard).  Timestamps are seconds as `Int` (`none` is
SQL NULL); calendar dates for the daily claim are day numbers.
-/

-- ==================== Progression curves ====================

/-- Embeds `LevelSystem.calculate_xp_for_level` from `bot.py` (lines 653-667):
total XP needed for a given level, piecewise linear with tier breaks at
levels 10, 25, 50 and 100. -/
def calculate_xp_for_level (level : Int) : Int :=
  if level ≤ 0 then 0
  else if level ≤ 10 then level * 100
  else if level ≤ 25 then 1000 + (level - 10) * 250
  else if level ≤ 50 then 4750 + (level - 25) * 500
  else if level ≤ 100 then 17250 + (level - 50) * 1000
  else 67250 + (level - 100) * 2000

/-- Fuel-indexed model of the `while xp >= calculate_xp_for_level(level + 1)`
loop of `LevelSystem.calculate_level_from_xp` in `bot.py` (lines 669-675). -/
def levelLoopFuel (xp : Int) : Nat → Int → Int
  | 0, level => level
  | fuel + 1, level =>
    if calculate_xp_for_level (level + 1) ≤ xp then levelLoopFuel xp fuel (level + 1)
    else level

/-- Embeds `LevelSystem.calculate_level_from_xp` from `bot.py`: upward scan
from level 0.  The fuel `xp.toNat + 1` is enough for the loop to exit through
its guard (each level costs at least one XP). -/
def calculate_level_from_xp (xp : Int) : Int :=
  levelLoopFuel xp (xp.toNat + 1) 0

/-- Embeds `LevelSystem.xp_for_level` from `level_system.py` (lines 8-33),
keeping the source's arithmetic (message counts times 10 XP per message) and
its special case for level 1. -/
def xp_for_level (level : Int) : Int :=
  if level ≤ 0 then 0
  else if level = 1 then 100
  else if level ≤ 10 then level * 10 * 10
  else if level ≤ 25 then 10 * 10 * 10 + (level - 10) * 25 * 10
  else if level ≤ 50 then 10 * 10 * 10 + 15 * 25 * 10 + (level - 25) * 50 * 10
  else 10 * 10 * 10 + 15 * 25 * 10 + 25 * 50 * 10 + (level - 50) * 100 * 10

/-- Fuel-indexed model of the `while` loop of `LevelSystem.calculate_level`
in `level_system.py` (lines 35-40). -/
def calcLevelLoopFuel (xp : Int) : Nat → Int → Int
  | 0, level => level
  | fuel + 1, level =>
    if xp_for_level (level + 1) ≤ xp then calcLevelLoopFuel xp fuel (level + 1)
    else level

/-- Embeds `LevelSystem.calculate_level` from `level_system.py`. -/
def calculate_level (total_xp : Int) : Int :=
  calcLevelLoopFuel total_xp (total_xp.toNat + 1) 0

-- ==================== Account data model ====================

/-- Embeds the columns of the SQLAlchemy `User` model in `bot.py`
(lines 174-227) that the embedded operations read or write.  Timestamps are
modelled as `Option Int` (seconds; `none` is SQL NULL), dates for the daily
claim as `Option Int` (day numbers), and the `achievements` JSON dict as the
list of its keys (the stored per-key metadata is never read back).
Omitted columns (`username`, `join_date`, `badges`, `message_timestamps`,
`warnings`, `is_banned`, `ban_reason`) are untouched by every embedded
operation. -/
structure User where
  first_name : String
  level : Int
  messages_count : Int
  prestige : Int
  hubcoins : Int
  reputation : Int
  xp : Int
  last_message_date : Option Int
  last_active : Option Int
  vip_member : Bool
  vip_expiry : Option Int
  custom_title : String
  custom_title_expiry : Option Int
  spotlight_priority : Bool
  boost_active : Bool
  boost_expiry : Option Int
  daily_streak : Int
  last_daily_date : Option Int
  achievements : List String
  total_xp_earned : Int
  total_coins_earned : Int
  total_coins_spent : Int
deriving DecidableEq, Repr

/-- One entry of `AchievementManager.ACHIEVEMENTS` in `bot.py` (lines 462-542). -/
structure AchDef where
  name : String
  description : String
  reward : Int
  icon : String
deriving DecidableEq, Repr

/-- Embeds the `AchievementManager.ACHIEVEMENTS` catalog of `bot.py`. -/
def ACHIEVEMENTS (key : String) : Option AchDef :=
  if key = "first_message" then some ⟨"First Words", "Send your first message", 50, "🎯"⟩
  else if key = "message_100" then some ⟨"Chatterbox", "Send 100 messages", 100, "💬"⟩
  else if key = "message_1000" then some ⟨"Conversation Master", "Send 1000 messages", 500, "🗣️"⟩
  else if key = "level_10" then some ⟨"Rising Star", "Reach level 10", 100, "⭐"⟩
  else if key = "level_50" then some ⟨"Half Century", "Reach level 50", 500, "🌟"⟩
  else if key = "level_100" then some ⟨"Centurion", "Reach level 100", 1000, "💯"⟩
  else if key = "streak_7" then some ⟨"Week Warrior", "7-day message streak", 150, "🔥"⟩
  else if key = "streak_30" then some ⟨"Monthly Master", "30-day message streak", 500, "🏆"⟩
  else if key = "streak_100" then some ⟨"Century Streak", "100-day message streak", 2000, "💎"⟩
  else if key = "vip" then some ⟨"Elite Member", "Purchase VIP status", 200, "👑"⟩
  else if key = "prestige_1" then some ⟨"Prestige Pioneer", "Achieve first prestige", 1000, "🌟"⟩
  else if key = "rich" then some ⟨"Wealthy", "Accumulate 10,000 coins", 500, "💰"⟩
  else none

/-- Embeds `AchievementManager.check_and_award` from `bot.py` (lines 544-568):
returns the awarded catalog entry (or `none` if already held / unknown) and
the updated account. -/
def check_and_award (u : User) (key : String) : Option AchDef × User :=
  if key ∈ u.achievements then (none, u)
  else
    match ACHIEVEMENTS key with
    | none => (none, u)
    | some a =>
      (some a,
        { u with
          achievements := u.achievements ++ [key],
          hubcoins := u.hubcoins + a.reward,
          total_coins_earned := u.total_coins_earned + a.reward })

/-- One `if <predicate>: check_and_award(user, key)` block of
`AchievementManager.check_all_achievements`, with the predicate evaluated on
the current (already partially updated) account. -/
def achStep (acc : List AchDef × User) (c : (User → Bool) × String) :
    List AchDef × User :=
  if c.1 acc.2 then
    match check_and_award acc.2 c.2 with
    | (some a, u) => (acc.1 ++ [a], u)
    | (none, u) => (acc.1, u)
  else acc

/-- The predicate/key pairs of `check_all_achievements` in source order
(`bot.py` lines 570-635). -/
def achChecks : List ((User → Bool) × String) :=
  [(fun u => decide (1 ≤ u.messages_count), "first_message"),
   (fun u => decide (100 ≤ u.messages_count), "message_100"),
   (fun u => decide (1000 ≤ u.messages_count), "message_1000"),
   (fun u => decide (10 ≤ u.level), "level_10"),
   (fun u => decide (50 ≤ u.level), "level_50"),
   (fun u => decide (100 ≤ u.level), "level_100"),
   (fun u => decide (7 ≤ u.daily_streak), "streak_7"),
   (fun u => decide (30 ≤ u.daily_streak), "streak_30"),
   (fun u => decide (100 ≤ u.daily_streak), "streak_100"),
   (fun u => decide (10000 ≤ u.hubcoins), "rich"),
   (fun u => decide (1 ≤ u.prestige), "prestige_1")]

/-- Embeds `AchievementManager.check_all_achievements` from `bot.py`:
runs the conditional awards in source order and returns the list of newly
earned catalog entries with the updated account. -/
def check_all_achievements (u : User) : List AchDef × User :=
  achChecks.foldl achStep ([], u)

-- ==================== Input validation ====================

/-- Substring test on character lists: does `w` occur contiguously in the
second list?  Embeds Python's `word in title.lower()`. -/
def hasSub (w : List Char) : List Char → Bool
  | [] => List.isPrefixOf w []
  | c :: rest => List.isPrefixOf w (c :: rest) || hasSub w rest

/-- The `banned_words` list of `InputValidator.validate_title` in `bot.py`. -/
def banned_words : List String := ["admin", "mod", "owner", "official"]

/-- Python's `str.lower`, character by character. -/
def lowerChars (s : String) : List Char := s.data.map Char.toLower

/-- Python's `str.strip`: drop whitespace from both ends. -/
def stripChars (l : List Char) : List Char :=
  ((l.dropWhile Char.isWhitespace).reverse.dropWhile Char.isWhitespace).reverse

/-- Embeds `InputValidator.validate_title` from `bot.py` (lines 408-427):
returns `(false, error message)` or `(true, sanitized title)`;
`Config.MAX_TITLE_LENGTH` is 20.  Python's `str.isalnum` on the
space-stripped title is modelled with `Char.isAlphanum`. -/
def validate_title (title : String) : Bool × String :=
  if title = "" then (false, "Title cannot be empty")
  else if 20 < title.length then (false, "Title must be 20 characters or less")
  else if banned_words.any (fun w => hasSub w.data (lowerChars title)) then
    (false, "Title contains restricted words")
  else
    let t := String.mk (stripChars title.data)
    let letters := t.data.filter (fun c => c ≠ ' ')
    if letters.isEmpty || !letters.all Char.isAlphanum then
      (false, "Title can only contain letters, numbers, and spaces")
    else (true, t)

-- ==================== Economy engine (economy.py) ====================

/-- One entry of `EconomySystem.shop_items` in `economy.py` (lines 4-8). -/
structure ShopItem where
  cost : Int
  name : String
  duration : Int
deriving DecidableEq, Repr

/-- Embeds the `shop_items` catalog of `EconomySystem` in `economy.py`. -/
def shop_items (item : String) : Option ShopItem :=
  if item = "spotlight" then some ⟨500, "Spotlight Post", 3600⟩
  else if item = "title" then some ⟨1000, "Custom Title", 604800⟩
  else if item = "color" then some ⟨750, "Colored Name", 259200⟩
  else none

/-- Embeds `EconomySystem.remove_coins` from `economy.py` (lines 19-31),
acting on the account row's balance: re-checks the balance and only then
subtracts. -/
def remove_coins (balance amount : Int) : Bool × Int :=
  if balance < amount then (false, balance) else (true, balance - amount)

/-- Embeds `EconomySystem.process_purchase` from `economy.py` (lines 42-57);
returns the `(success, message)` pair and the resulting balance. -/
def process_purchase (balance : Int) (item_type : String) :
    (Bool × String) × Int :=
  match shop_items item_type with
  | none => ((false, "Invalid item"), balance)
  | some it =>
    if balance < it.cost then ((false, "Insufficient HubCoins"), balance)
    else
      match remove_coins balance it.cost with
      | (true, b) => ((true, "Successfully purchased " ++ it.name ++ "!"), b)
      | (false, b) => ((false, "Purchase failed"), b)

-- ==================== Shop command handlers (bot.py) ====================

/-- Outcome of the `/buy title` handler. -/
inductive TitleResult where
  | invalid (msg : String)
  | insufficient
  | purchased
deriving DecidableEq, Repr

/-- `true` exactly on validation failures. -/
def TitleResult.isInvalid : TitleResult → Bool
  | .invalid _ => true
  | _ => false

/-- Embeds `CommandHandlers._buy_title` from `bot.py` (lines 1121-1151):
validate, check the 1000-coin price, then deduct and set the title for
7 days (604800 seconds). -/
def buy_title (u : User) (title : String) (now : Int) : TitleResult × User :=
  let v := validate_title title
  if v.1 = false then (TitleResult.invalid v.2, u)
  else if u.hubcoins < 1000 then (TitleResult.insufficient, u)
  else
    (TitleResult.purchased,
      { u with
        hubcoins := u.hubcoins - 1000,
        total_coins_spent := u.total_coins_spent + 1000,
        custom_title := v.2,
        custom_title_expiry := some (now + 7 * 86400) })

/-- Outcome of the `/buy vip` handler. -/
inductive VipOutcome where
  | insufficient
  | purchased (ach : Option AchDef)
deriving DecidableEq, Repr

/-- Embeds `CommandHandlers._buy_vip` from `bot.py` (lines 1173-1199):
check the 10000-coin price, deduct, activate VIP for 30 days (2592000
seconds) and run `check_and_award(user, 'vip')` in the same operation. -/
def buy_vip (u : User) (now : Int) : VipOutcome × User :=
  if u.hubcoins < 10000 then (VipOutcome.insufficient, u)
  else
    let u1 :=
      { u with
        hubcoins := u.hubcoins - 10000,
        total_coins_spent := u.total_coins_spent + 10000,
        vip_member := true,
        vip_expiry := some (now + 30 * 86400) }
    let r := check_and_award u1 "vip"
    (VipOutcome.purchased r.1, r.2)

-- ==================== Grant expiry reads ====================

/-- Embeds `User._is_title_expired` from `bot.py` (lines 236-240):
`utcnow() > expiry`; a NULL expiry is never expired. -/
def is_title_expired (u : User) (now : Int) : Bool :=
  match u.custom_title_expiry with
  | none => false
  | some t => t < now

/-- Embeds `User._is_vip_expired` from `bot.py` (lines 242-246). -/
def is_vip_expired (u : User) (now : Int) : Bool :=
  match u.vip_expiry with
  | none => false
  | some t => t < now

/-- The `title` component of `User.get_display_name` in `bot.py` (line 231). -/
def title_badge (u : User) (now : Int) : String :=
  if u.custom_title ≠ "" && !is_title_expired u now then " [" ++ u.custom_title ++ "]"
  else ""

/-- The `vip_badge` component of `User.get_display_name` (line 232). -/
def vip_badge (u : User) (now : Int) : String :=
  if u.vip_member && !is_vip_expired u now then " 👑" else ""

/-- The `prestige_badge` component of `User.get_display_name` (line 233). -/
def prestige_badge (u : User) : String :=
  if 0 < u.prestige then String.join (List.replicate (min u.prestige 5).toNat "⭐")
  else ""

/-- Embeds `User.get_display_name` from `bot.py` (lines 229-234). -/
def get_display_name (u : User) (now : Int) : String :=
  u.first_name ++ title_badge u now ++ vip_badge u now ++ prestige_badge u

/-- The XP-boost doubling condition of `MessageProcessor.process_message`
(`bot.py` line 760): `boost_active and boost_expiry > utcnow()`.  (Python
would raise on a NULL expiry with the flag set; the purchase paths never
produce that state, and it is modelled as inactive.) -/
def boost_multiplier_active (u : User) (now : Int) : Bool :=
  u.boost_active &&
    (match u.boost_expiry with
     | some t => now < t
     | none => false)

/-- The VIP coin-doubling condition of `process_message` (`bot.py` line 768):
`vip_member and (not vip_expiry or vip_expiry > utcnow())`; a NULL expiry
counts as active here. -/
def vip_coin_active (u : User) (now : Int) : Bool :=
  u.vip_member &&
    (match u.vip_expiry with
     | some t => now < t
     | none => true)

/-- The VIP bonus of `CommandHandlers.daily` (`bot.py` line 1036):
`100 if user.vip_member else 0` — the expiry is not consulted. -/
def daily_vip_bonus (u : User) : Int :=
  if u.vip_member then 100 else 0

-- ==================== Activity processing ====================

/-- Embeds `CacheManager.check_rate_limit` from `bot.py` (lines 392-401) for
one identity inside one TTL window: `count` is that identity's entry of
`rate_limit_cache` (missing key = 0); `Config.MAX_MESSAGES_PER_SECOND` is 30.
Returns (allowed, updated entry). -/
def check_rate_limit (count : Int) : Bool × Int :=
  if 30 ≤ count then (false, count) else (true, count + 1)

/-- Embeds the account mutation of `MessageProcessor.process_message`
(`bot.py` lines 732-806) for one in-scope group message: `count` is the
identity's rate-limit entry, `gxp ∈ [10,25]` and `gcoins ∈ [1,5]` are the
values the two `random.randint` calls drew.  Returns the updated account and
rate-limit entry; notifications and message deletion are external I/O. -/
def process_message (u : User) (count : Int) (now gxp gcoins : Int) :
    User × Int :=
  match check_rate_limit count with
  | (false, c) => (u, c)
  | (true, c) =>
    let old_level := u.level
    let u1 := { u with
      messages_count := u.messages_count + 1,
      last_message_date := some now,
      last_active := some now }
    let base_xp := if boost_multiplier_active u1 now then gxp * 2 else gxp
    let u2 := { u1 with
      xp := u1.xp + base_xp,
      total_xp_earned := u1.total_xp_earned + base_xp }
    let base_coins := if vip_coin_active u2 now then gcoins * 2 else gcoins
    let u3 := { u2 with
      hubcoins := u2.hubcoins + base_coins,
      total_coins_earned := u2.total_coins_earned + base_coins }
    let new_level := calculate_level_from_xp u3.xp
    let u4 :=
      if old_level < new_level then
        { u3 with
          level := new_level,
          hubcoins := u3.hubcoins + new_level * 50,
          total_coins_earned := u3.total_coins_earned + new_level * 50 }
      else u3
    ((check_all_achievements u4).2, c)

/-- Embeds the reward logic of `CommandHandlers.daily` from `bot.py`
(lines 997-1054): `today` is the current UTC date (a day number) and
`last_daily_date` stores the date of the last claim.  Returns whether a
reward was granted and the updated account. -/
def daily (u : User) (today : Int) : Bool × User :=
  if u.last_daily_date = some today then (false, u)
  else
    let streak :=
      match u.last_daily_date with
      | some d => if today - d = 1 then u.daily_streak + 1 else 1
      | none => 1
    let base_reward : Int := 100
    let streak_bonus : Int := min 500 (streak * 10)
    let total := base_reward + streak_bonus + daily_vip_bonus u
    let u1 := { u with
      daily_streak := streak,
      hubcoins := u.hubcoins + total,
      total_coins_earned := u.total_coins_earned + total,
      last_daily_date := some today }
    (true, (check_all_achievements u1).2)

-- ==================== Concrete accounts ====================

/-- A freshly created account, as `_get_or_create_user` builds it with the
column defaults of the `User` model (`bot.py` lines 174-227): `hubcoins`
starts at 100, everything else at zero / empty / NULL. -/
def freshUser : User :=
  { first_name := "Leo"
    level := 0, messages_count := 0, prestige := 0, hubcoins := 100
    reputation := 0, xp := 0
    last_message_date := none, last_active := none
    vip_member := false, vip_expiry := none
    custom_title := "", custom_title_expiry := none
    spotlight_priority := false, boost_active := false, boost_expiry := none
    daily_streak := 0, last_daily_date := none
    achievements := []
    total_xp_earned := 0, total_coins_earned := 0, total_coins_spent := 0 }

/-- An account whose VIP grant has expired: the flag is still set but the
expiry timestamp 0 lies in the past of every positive observation time. -/
def expiredVipUser : User :=
  { freshUser with vip_member := true, vip_expiry := some 0 }

/-- An account that already holds the `first_message` achievement. -/
def achieverUser : User :=
  { freshUser with messages_count := 5, achievements := ["first_message"] }

/-- An account with exactly 999 coins (insufficient for a 1000-coin title). -/
def poorUser : User := { freshUser with hubcoins := 999 }

/-- An account with exactly 10000 coins (just enough for VIP). -/
def richUser : User := { freshUser with hubcoins := 10000 }

-- ==================== Progression-curve lemmas ====================

theorem xp_strict_mono {a b : Int} (ha : 0 ≤ a) (hab : a < b) :
    calculate_xp_for_level a < calculate_xp_for_level b := by
  unfold calculate_xp_for_level
  split_ifs <;> omega

theorem xp_mono_le {a b : Int} (ha : 0 ≤ a) (hab : a ≤ b) :
    calculate_xp_for_level a ≤ calculate_xp_for_level b := by
  rcases eq_or_lt_of_le hab with rfl | h
  · exact le_refl _
  · exact le_of_lt (xp_strict_mono ha h)

theorem xp_ge_self {a : Int} (ha : 1 ≤ a) : a ≤ calculate_xp_for_level a := by
  unfold calculate_xp_for_level
  split_ifs <;> omega

theorem levelLoopFuel_lower (xp : Int) :
    ∀ (fuel : Nat) (level : Int), calculate_xp_for_level level ≤ xp →
      calculate_xp_for_level (levelLoopFuel xp fuel level) ≤ xp := by
  intro fuel
  induction fuel with
  | zero => intro level h; exact h
  | succ n ih =>
    intro level h
    unfold levelLoopFuel
    split
    · exact ih (level + 1) (by assumption)
    · exact h

theorem levelLoopFuel_ge (xp : Int) :
    ∀ (fuel : Nat) (level : Int), level ≤ levelLoopFuel xp fuel level := by
  intro fuel
  induction fuel with
  | zero => intro level; exact le_refl level
  | succ n ih =>
    intro level
    unfold levelLoopFuel
    split
    · exact le_trans (by omega) (ih (level + 1))
    · exact le_refl level

theorem levelLoopFuel_upper (xp : Int) :
    ∀ (fuel : Nat) (level : Int), 0 ≤ level → xp < level + (fuel : Int) →
      xp < calculate_xp_for_level (levelLoopFuel xp fuel level + 1) := by
  intro fuel
  induction fuel with
  | zero =>
    intro level hl hfuel
    simp only [levelLoopFuel]
    have h1 : (1 : Int) ≤ level + 1 := by omega
    have := xp_ge_self h1
    omega
  | succ n ih =>
    intro level hl hfuel
    unfold levelLoopFuel
    split
    · exact ih (level + 1) (by omega) (by push_cast at hfuel ⊢; omega)
    · omega

theorem calculate_level_from_xp_ge (xp : Int) : 0 ≤ calculate_level_from_xp xp :=
  levelLoopFuel_ge xp _ 0

theorem calculate_level_from_xp_le (xp : Int) (h : 0 ≤ xp) :
    calculate_xp_for_level (calculate_level_from_xp xp) ≤ xp := by
  apply levelLoopFuel_lower
  simp [calculate_xp_for_level, h]

theorem calculate_level_from_xp_lt (xp : Int) (h : 0 ≤ xp) :
    xp < calculate_xp_for_level (calculate_level_from_xp xp + 1) := by
  apply levelLoopFuel_upper xp _ 0 (le_refl 0)
  have : ((xp.toNat : Int)) = xp := Int.toNat_of_nonneg h
  push_cast
  omega

theorem calculate_level_from_xp_max (xp : Int) (h : 0 ≤ xp) :
    ∀ M : Int, 0 ≤ M → calculate_xp_for_level M ≤ xp →
      M ≤ calculate_level_from_xp xp := by
  intro M hM hMle
  by_contra hcon
  push_neg at hcon
  have h1 : calculate_level_from_xp xp + 1 ≤ M := hcon
  have h2 : 0 ≤ calculate_level_from_xp xp + 1 := by
    have := calculate_level_from_xp_ge xp
    omega
  have h3 : calculate_xp_for_level (calculate_level_from_xp xp + 1) ≤
      calculate_xp_for_level M := xp_mono_le h2 h1
  have h4 := calculate_level_from_xp_lt xp h
  omega

-- ==================== Achievement lemmas ====================

theorem check_and_award_cases (u : User) (k : String) :
    (∃ a, ACHIEVEMENTS k = some a ∧ k ∉ u.achievements ∧
      check_and_award u k =
        (some a,
          { u with
            achievements := u.achievements ++ [k],
            hubcoins := u.hubcoins + a.reward,
            total_coins_earned := u.total_coins_earned + a.reward })) ∨
    check_and_award u k = (none, u) := by
  unfold check_and_award
  by_cases hk : k ∈ u.achievements
  · right; simp [hk]
  · cases hA : ACHIEVEMENTS k with
    | none => right; simp [hk]
    | some a => left; exact ⟨a, rfl, hk, by simp [hk]⟩

theorem check_and_award_already (u : User) (key : String)
    (h : key ∈ u.achievements) : check_and_award u key = (none, u) := by
  unfold check_and_award
  simp [h]

theorem check_and_award_count (u : User) (k key : String)
    (h : key ∈ u.achievements) :
    List.count key ((check_and_award u k).2).achievements =
      List.count key u.achievements := by
  rcases check_and_award_cases u k with ⟨a, _, hk, hca⟩ | hca <;> rw [hca]
  have hne : (k == key) = false := by
    refine beq_eq_false_iff_ne.mpr ?_
    intro he; exact hk (he ▸ h)
  have hne2 : (key == k) = false := by
    refine beq_eq_false_iff_ne.mpr ?_
    intro he; exact hk (he ▸ h)
  simp [List.count_append, List.count_cons, List.count_nil, hne, hne2]

theorem check_and_award_mem (u : User) (k key : String)
    (h : key ∈ u.achievements) :
    key ∈ ((check_and_award u k).2).achievements := by
  rcases check_and_award_cases u k with ⟨a, _, _, hca⟩ | hca <;> rw [hca]
  · exact List.mem_append_left _ h
  · exact h

theorem achStep_snd (acc : List AchDef × User) (c : (User → Bool) × String) :
    (achStep acc c).2 = if c.1 acc.2 then (check_and_award acc.2 c.2).2 else acc.2 := by
  unfold achStep
  split
  · rcases hca : check_and_award acc.2 c.2 with ⟨o, u⟩
    rcases o with _ | a <;> simp [hca]
  · rfl

theorem achStep_invariant (acc : List AchDef × User) (c : (User → Bool) × String) :
    ((achStep acc c).2).hubcoins + (acc.1.map AchDef.reward).sum =
      acc.2.hubcoins + (((achStep acc c).1).map AchDef.reward).sum ∧
    ((achStep acc c).2).achievements.length + acc.1.length =
      acc.2.achievements.length + ((achStep acc c).1).length ∧
    ((achStep acc c).2).messages_count = acc.2.messages_count := by
  unfold achStep
  split
  · rcases check_and_award_cases acc.2 c.2 with ⟨a, _, _, hca⟩ | hca <;> rw [hca] <;>
      refine ⟨?_, ?_, ?_⟩ <;> simp <;> omega
  · exact ⟨rfl, rfl, rfl⟩

theorem foldl_achStep_invariant :
    ∀ (l : List ((User → Bool) × String)) (acc : List AchDef × User),
      ((l.foldl achStep acc).2).hubcoins + (acc.1.map AchDef.reward).sum =
        acc.2.hubcoins + (((l.foldl achStep acc).1).map AchDef.reward).sum ∧
      ((l.foldl achStep acc).2).achievements.length + acc.1.length =
        acc.2.achievements.length + ((l.foldl achStep acc).1).length ∧
      ((l.foldl achStep acc).2).messages_count = acc.2.messages_count := by
  intro l
  induction l with
  | nil => intro acc; exact ⟨rfl, rfl, rfl⟩
  | cons c t ih =>
    intro acc
    simp only [List.foldl_cons]
    obtain ⟨s1, s2, s3⟩ := achStep_invariant acc c
    obtain ⟨i1, i2, i3⟩ := ih (achStep acc c)
    exact ⟨by omega, by omega, i3.trans s3⟩

theorem foldl_achStep_count (key : String) :
    ∀ (l : List ((User → Bool) × String)) (acc : List AchDef × User),
      key ∈ acc.2.achievements →
      List.count key ((l.foldl achStep acc).2).achievements =
        List.count key acc.2.achievements ∧
      key ∈ ((l.foldl achStep acc).2).achievements := by
  intro l
  induction l with
  | nil => intro acc h; exact ⟨rfl, h⟩
  | cons c t ih =>
    intro acc h
    simp only [List.foldl_cons]
    have hsnd := achStep_snd acc c
    have h1 : List.count key ((achStep acc c).2).achievements =
        List.count key acc.2.achievements := by
      rw [hsnd]; split
      · exact check_and_award_count acc.2 c.2 key h
      · rfl
    have h2 : key ∈ ((achStep acc c).2).achievements := by
      rw [hsnd]; split
      · exact check_and_award_mem acc.2 c.2 key h
      · exact h
    obtain ⟨i1, i2⟩ := ih (achStep acc c) h2
    exact ⟨i1.trans h1, i2⟩

theorem check_all_count (u : User) (key : String) (h : key ∈ u.achievements) :
    List.count key ((check_all_achievements u).2).achievements =
      List.count key u.achievements :=
  (foldl_achStep_count key achChecks ([], u) h).1

theorem check_all_mem (u : User) (key : String) (h : key ∈ u.achievements) :
    key ∈ ((check_all_achievements u).2).achievements :=
  (foldl_achStep_count key achChecks ([], u) h).2

theorem check_all_coins (u : User) :
    ((check_all_achievements u).2).hubcoins =
      u.hubcoins + (((check_all_achievements u).1).map AchDef.reward).sum := by
  have := (foldl_achStep_invariant achChecks ([], u)).1
  simpa [check_all_achievements] using this

theorem check_all_length (u : User) :
    ((check_all_achievements u).2).achievements.length =
      u.achievements.length + ((check_all_achievements u).1).length := by
  have := (foldl_achStep_invariant achChecks ([], u)).2.1
  simpa [check_all_achievements] using this

theorem check_all_messages (u : User) :
    ((check_all_achievements u).2).messages_count = u.messages_count :=
  (foldl_achStep_invariant achChecks ([], u)).2.2

theorem process_message_mem (u : User) (key : String) (h : key ∈ u.achievements)
    (count now gxp gcoins : Int) :
    key ∈ ((process_message u count now gxp gcoins).1).achievements := by
  unfold process_message
  cases hrl : check_rate_limit count with
  | mk b c =>
    cases b
    · exact h
    · dsimp only
      apply check_all_mem
      split_ifs <;> exact h

theorem daily_mem (u : User) (key : String) (h : key ∈ u.achievements)
    (today : Int) : key ∈ ((daily u today).2).achievements := by
  unfold daily
  split
  · exact h
  · dsimp only
    exact check_all_mem _ key h

theorem buy_vip_mem (u : User) (key : String) (h : key ∈ u.achievements)
    (now : Int) : key ∈ ((buy_vip u now).2).achievements := by
  unfold buy_vip
  split
  · exact h
  · dsimp only
    exact check_and_award_mem _ _ key h

theorem buy_title_mem (u : User) (key : String) (h : key ∈ u.achievements)
    (title : String) (now : Int) :
    key ∈ ((buy_title u title now).2).achievements := by
  unfold buy_title
  dsimp only
  split_ifs <;> exact h

-- ==================== Claim C2 ====================

/-- C2: achievements are exactly-once.  If `key` is already in the account's
achievements, then `check_and_award` is a complete no-op (no re-add, no
reward), `check_all_achievements` keeps the number of copies of `key`
unchanged and never drops it, the coins it adds are exactly the rewards of
the newly returned entries and each such entry corresponds to one new id;
and no embedded operation (`process_message`, `daily`, `buy_vip`,
`buy_title`) ever removes `key` from the achievements. -/
theorem achievements_exactly_once (u : User) (key : String)
    (h : key ∈ u.achievements) :
    check_and_award u key = (none, u) ∧
    List.count key ((check_all_achievements u).2).achievements =
      List.count key u.achievements ∧
    key ∈ ((check_all_achievements u).2).achievements ∧
    ((check_all_achievements u).2).hubcoins =
      u.hubcoins + (((check_all_achievements u).1).map AchDef.reward).sum ∧
    ((check_all_achievements u).2).achievements.length =
      u.achievements.length + ((check_all_achievements u).1).length ∧
    (∀ count now gxp gcoins : Int,
      key ∈ ((process_message u count now gxp gcoins).1).achievements) ∧
    (∀ today : Int, key ∈ ((daily u today).2).achievements) ∧
    (∀ now : Int, key ∈ ((buy_vip u now).2).achievements) ∧
    (∀ title now, key ∈ ((buy_title u title now).2).achievements) :=
  ⟨check_and_award_already u key h, check_all_count u key h,
   check_all_mem u key h, check_all_coins u, check_all_length u,
   fun count now gxp gcoins => process_message_mem u key h count now gxp gcoins,
   fun today => daily_mem u key h today,
   fun now => buy_vip_mem u key h now,
   fun title now => buy_title_mem u key h title now⟩

/-- Witness for C2 on a concrete account already holding `first_message`. -/
theorem achievements_exactly_once_witness :
    check_and_award achieverUser "first_message" = (none, achieverUser) ∧
    List.count "first_message"
        ((check_all_achievements achieverUser).2).achievements =
      List.count "first_message" achieverUser.achievements :=
  ⟨(achievements_exactly_once achieverUser "first_message" (by decide)).1,
   (achievements_exactly_once achieverUser "first_message" (by decide)).2.1⟩

-- ==================== Claim C3 ====================

/-- C3: for every non-negative experience value `e`, `calculate_level_from_xp e`
is the largest level `L` with `calculate_xp_for_level L ≤ e`; moreover
`levelFor 0 = 0`, `levelFor (thresholdFor 10) = 10` and
`levelFor (thresholdFor 10 - 1) = 9`. -/
theorem level_from_xp_is_greatest (e : Int) (he : 0 ≤ e) :
    0 ≤ calculate_level_from_xp e ∧
    calculate_xp_for_level (calculate_level_from_xp e) ≤ e ∧
    (∀ M : Int, 0 ≤ M → calculate_xp_for_level M ≤ e → M ≤ calculate_level_from_xp e) ∧
    calculate_level_from_xp 0 = 0 ∧
    calculate_level_from_xp (calculate_xp_for_level 10) = 10 ∧
    calculate_level_from_xp (calculate_xp_for_level 10 - 1) = 9 :=
  ⟨calculate_level_from_xp_ge e, calculate_level_from_xp_le e he,
   calculate_level_from_xp_max e he, by decide, by decide, by decide⟩

/-- Witness for C3 at the concrete experience value 250. -/
theorem level_from_xp_is_greatest_witness :
    calculate_xp_for_level (calculate_level_from_xp 250) ≤ 250 ∧
    (2 : Int) ≤ calculate_level_from_xp 250 :=
  ⟨(level_from_xp_is_greatest 250 (by decide)).2.1,
   (level_from_xp_is_greatest 250 (by decide)).2.2.1 2 (by decide) (by decide)⟩

-- ==================== Claim C4 ====================

/-- C4: the progression threshold `calculate_xp_for_level` is strictly
monotone: for all levels `L1 < L2` with `0 ≤ L1`,
`calculate_xp_for_level L1 < calculate_xp_for_level L2`. -/
theorem xp_for_level_strict_mono (L1 L2 : Int) (h0 : 0 ≤ L1) (h : L1 < L2) :
    calculate_xp_for_level L1 < calculate_xp_for_level L2 :=
  xp_strict_mono h0 h

/-- Witness for C4 at the concrete levels 5 < 17 (crossing a tier break). -/
theorem xp_for_level_strict_mono_witness :
    calculate_xp_for_level 5 < calculate_xp_for_level 17 :=
  xp_for_level_strict_mono 5 17 (by decide) (by decide)

-- ==================== Claim C8 ====================

/-- C8 counterexample: negative experience is not rejected; both level
computations silently return the valid level 0 on the input `-5`
(the `while` loop guard `100 ≤ -5` fails at once and no error path exists). -/
theorem negative_xp_clamped_counterexample :
    calculate_level_from_xp (-5) = 0 ∧ calculate_level (-5) = 0 := by
  constructor <;> decide

/-- C8 amended: for every negative experience value `e`, the level
computations of both `bot.py` and `level_system.py` accept `e` and silently
clamp the result to level 0; no error is raised. -/
theorem negative_xp_clamped (e : Int) (he : e < 0) :
    calculate_level_from_xp e = 0 ∧ calculate_level e = 0 := by
  have ht : e.toNat = 0 := by omega
  constructor
  · unfold calculate_level_from_xp
    rw [ht]
    unfold levelLoopFuel
    have : ¬ calculate_xp_for_level 1 ≤ e := by
      unfold calculate_xp_for_level; norm_num; omega
    simp [this]
  · unfold calculate_level
    rw [ht]
    unfold calcLevelLoopFuel
    have : ¬ xp_for_level 1 ≤ e := by
      unfold xp_for_level; norm_num; omega
    simp [this]

/-- Witness for C8's amended claim at the concrete input `-7`. -/
theorem negative_xp_clamped_witness :
    calculate_level_from_xp (-7) = 0 ∧ calculate_level (-7) = 0 :=
  negative_xp_clamped (-7) (by decide)

-- ==================== Claim C10 ====================

/-- C10: the two progression curves agree on levels 0..100, and above level
100 they diverge exactly by the extra 1000 XP per level that `bot.py`'s fifth
tier charges (2000 per level versus 1000 per level in `level_system.py`). -/
theorem curves_agree_up_to_100 (L : Int) :
    (0 ≤ L → L ≤ 100 → calculate_xp_for_level L = xp_for_level L) ∧
    (100 < L → calculate_xp_for_level L = xp_for_level L + 1000 * (L - 100)) := by
  unfold calculate_xp_for_level xp_for_level
  constructor
  · intro h0 h100
    split_ifs <;> omega
  · intro h100
    split_ifs <;> omega

/-- Witness for C10 at the concrete levels 77 and 101. -/
theorem curves_agree_up_to_100_witness :
    calculate_xp_for_level 77 = xp_for_level 77 ∧
    calculate_xp_for_level 101 = xp_for_level 101 + 1000 * (101 - 100) :=
  ⟨(curves_agree_up_to_100 77).1 (by decide) (by decide),
   (curves_agree_up_to_100 101).2 (by decide)⟩

-- ==================== Claim C1 ====================

/-- C1: an underfunded purchase is rejected with an insufficient-funds result
and mutates nothing.  In `economy.py`, for every catalog item, a balance
below the cost yields exactly `(False, "Insufficient HubCoins")` with the
balance unchanged, and a purchase never drives a non-negative balance
negative.  In `bot.py`, `_buy_title` with fewer than 1000 coins leaves the
whole account record unchanged (balance and `custom_title` included),
reports the insufficient-funds outcome when the title was valid, and never
drives a non-negative balance negative. -/
theorem purchase_insufficient_funds_no_mutation
    (item : String) (it : ShopItem) (balance : Int) (u : User)
    (title : String) (now : Int) :
    (shop_items item = some it → balance < it.cost →
      process_purchase balance item = ((false, "Insufficient HubCoins"), balance)) ∧
    (0 ≤ balance → 0 ≤ (process_purchase balance item).2) ∧
    (u.hubcoins < 1000 → (buy_title u title now).2 = u) ∧
    (u.hubcoins < 1000 → (validate_title title).1 = true →
      (buy_title u title now).1 = TitleResult.insufficient) ∧
    (0 ≤ u.hubcoins → 0 ≤ ((buy_title u title now).2).hubcoins) := by
  refine ⟨?_, ?_, ?_, ?_, ?_⟩
  · intro hit hlt
    unfold process_purchase
    rw [hit]
    simp [hlt]
  · intro hb
    unfold process_purchase
    cases hit : shop_items item with
    | none => exact hb
    | some it2 =>
      dsimp only
      split
      · exact hb
      · rename_i hge
        unfold remove_coins
        rw [if_neg hge]
        dsimp only
        omega
  · intro hlt
    unfold buy_title
    dsimp only
    split_ifs with h1
    · rfl
    · rfl
  · intro hlt hv
    unfold buy_title
    dsimp only
    split_ifs with h1
    · rw [hv] at h1; exact absurd h1 (by decide)
    · rfl
  · intro hb
    unfold buy_title
    dsimp only
    split_ifs with h1 h2
    · exact hb
    · exact hb
    · dsimp only
      omega

/-- Witness for C1: the spec scenario of a 999-coin account attempting the
1000-coin custom-title purchase. -/
theorem purchase_insufficient_funds_no_mutation_witness :
    process_purchase 999 "title" = ((false, "Insufficient HubCoins"), 999) ∧
    (buy_title poorUser "Knight" 0).2 = poorUser ∧
    (buy_title poorUser "Knight" 0).1 = TitleResult.insufficient :=
  ⟨(purchase_insufficient_funds_no_mutation "title" ⟨1000, "Custom Title", 604800⟩
      999 poorUser "Knight" 0).1 (by decide) (by decide),
   (purchase_insufficient_funds_no_mutation "title" ⟨1000, "Custom Title", 604800⟩
      999 poorUser "Knight" 0).2.2.1 (by decide),
   (purchase_insufficient_funds_no_mutation "title" ⟨1000, "Custom Title", 604800⟩
      999 poorUser "Knight" 0).2.2.2.1 (by decide) (by decide)⟩

-- ==================== Claim C9 ====================

/-- C9: custom-title purchase validates before mutating: an empty title, a
title longer than 20 characters, or a title containing a forbidden substring
is rejected with a validation error while the account stays unchanged; a
title accepted by `validate_title` purchases successfully when the balance
is at least 1000 coins, deducting exactly 1000 coins, storing the sanitized
title and setting its expiry to now + 7 days (604800 seconds). -/
theorem buy_title_validates_before_mutating (u : User) (title : String) (now : Int) :
    ((title = "" ∨ 20 < title.length ∨
        banned_words.any (fun w => hasSub w.data (lowerChars title)) = true) →
      (validate_title title).1 = false ∧
      (buy_title u title now).2 = u ∧
      ((buy_title u title now).1).isInvalid = true) ∧
    ((validate_title title).1 = true → 1000 ≤ u.hubcoins →
      (buy_title u title now).1 = TitleResult.purchased ∧
      ((buy_title u title now).2).hubcoins = u.hubcoins - 1000 ∧
      ((buy_title u title now).2).custom_title = (validate_title title).2 ∧
      ((buy_title u title now).2).custom_title_expiry = some (now + 7 * 86400)) := by
  constructor
  · intro h
    have hv : (validate_title title).1 = false := by
      unfold validate_title
      dsimp only
      split_ifs <;> simp_all
    refine ⟨hv, ?_, ?_⟩
    · unfold buy_title
      dsimp only
      rw [if_pos hv]
    · unfold buy_title
      dsimp only
      rw [if_pos hv]
      rfl
  · intro hv hb
    unfold buy_title
    dsimp only
    rw [if_neg (by simp [hv]), if_neg (by omega)]
    exact ⟨rfl, rfl, rfl, rfl⟩

/-- Witness for C9: the forbidden title "admin" is rejected without mutation
on a fresh account; the valid title "Sir Leo" purchases successfully on a
10000-coin account. -/
theorem buy_title_validates_before_mutating_witness :
    (buy_title freshUser "admin" 0).2 = freshUser ∧
    (buy_title richUser "Sir Leo" 5).1 = TitleResult.purchased :=
  ⟨((buy_title_validates_before_mutating freshUser "admin" 0).1
      (Or.inr (Or.inr (by decide)))).2.1,
   ((buy_title_validates_before_mutating richUser "Sir Leo" 5).2
      (by decide) (by decide)).1⟩

-- ==================== Claim C7 ====================

/-- C7: buying VIP with at least 10000 coins deducts exactly the 10000-coin
price, activates VIP until now + 30 days (2592000 seconds) and grants the
`vip` achievement within the same operation; since the grant credits
the achievement's 200-coin reward in the same mutation, the balance ends at
old - 10000 + 200 on a first purchase and at exactly old - 10000 on a
repurchase (the achievement is never granted twice). -/
theorem buy_vip_success (u : User) (now : Int) (h : 10000 ≤ u.hubcoins) :
    ((buy_vip u now).2).vip_member = true ∧
    ((buy_vip u now).2).vip_expiry = some (now + 30 * 86400) ∧
    ((buy_vip u now).2).total_coins_spent = u.total_coins_spent + 10000 ∧
    "vip" ∈ ((buy_vip u now).2).achievements ∧
    ("vip" ∉ u.achievements →
      ((buy_vip u now).2).hubcoins = u.hubcoins - 10000 + 200 ∧
      (buy_vip u now).1 = VipOutcome.purchased (ACHIEVEMENTS "vip")) ∧
    ("vip" ∈ u.achievements →
      ((buy_vip u now).2).hubcoins = u.hubcoins - 10000 ∧
      (buy_vip u now).1 = VipOutcome.purchased none) := by
  by_cases hv : "vip" ∈ u.achievements
  · have hca := check_and_award_already
      { u with
        hubcoins := u.hubcoins - 10000,
        total_coins_spent := u.total_coins_spent + 10000,
        vip_member := true,
        vip_expiry := some (now + 30 * 86400) } "vip" hv
    unfold buy_vip
    rw [if_neg (by omega)]
    dsimp only
    rw [hca]
    exact ⟨rfl, rfl, rfl, hv, fun hnv => absurd hv hnv, fun _ => ⟨rfl, rfl⟩⟩
  · have hA : ACHIEVEMENTS "vip" =
        some ⟨"Elite Member", "Purchase VIP status", 200, "👑"⟩ := by decide
    unfold buy_vip
    rw [if_neg (by omega)]
    dsimp only
    unfold check_and_award
    rw [if_neg hv, hA]
    dsimp only
    refine ⟨rfl, rfl, rfl, ?_, fun _ => ⟨rfl, rfl⟩, fun hin => absurd hin hv⟩
    exact List.mem_append_right _ (by simp)

/-- Witness for C7: a first-time VIP purchase on a 10000-coin account. -/
theorem buy_vip_success_witness :
    ((buy_vip richUser 0).2).vip_member = true ∧
    ((buy_vip richUser 0).2).hubcoins = richUser.hubcoins - 10000 + 200 :=
  ⟨(buy_vip_success richUser 0 (by decide)).1,
   ((buy_vip_success richUser 0 (by decide)).2.2.2.2.1 (by decide)).1⟩

-- ==================== Claim C5 ====================

/-- C5 counterexample: there is no per-identity cooldown tied to
`last_message_date`.  Starting from a fresh account (rate-limit entry 0),
an event at t = 0 and a second event at t = 1 — less than 60 seconds
later — are both processed in full: the message count goes 1 then 2, so the
state after both events differs from the state after just the first. -/
theorem debounce_counterexample :
    ((process_message freshUser 0 0 10 1).1).messages_count = 1 ∧
    (1 : Int) - 0 < 60 ∧
    ((process_message (process_message freshUser 0 0 10 1).1
        (process_message freshUser 0 0 10 1).2 1 10 1).1).messages_count = 2 ∧
    (process_message (process_message freshUser 0 0 10 1).1
        (process_message freshUser 0 0 10 1).2 1 10 1).1 ≠
      (process_message freshUser 0 0 10 1).1 := by
  exact ⟨by decide, by decide, by decide, by decide⟩

/-- C5 amended: activity processing is gated by a counting rate limit, not a
cooldown: once the identity's entry in the 60-second TTL window has reached
`MAX_MESSAGES_PER_SECOND = 30`, an event is a complete no-op on the account;
below 30, the event is processed in full (the message count increments)
regardless of how recently `last_message_date` was updated. -/
theorem rate_limit_counting_window (u : User) (count now gxp gcoins : Int) :
    (30 ≤ count → process_message u count now gxp gcoins = (u, count)) ∧
    (count < 30 →
      ((process_message u count now gxp gcoins).1).messages_count =
        u.messages_count + 1 ∧
      (process_message u count now gxp gcoins).2 = count + 1) := by
  constructor
  · intro h
    unfold process_message check_rate_limit
    rw [if_pos h]
  · intro h
    unfold process_message check_rate_limit
    rw [if_neg (by omega)]
    dsimp only
    refine ⟨?_, rfl⟩
    rw [check_all_messages]
    split_ifs <;> rfl

/-- Witness for C5's amended claim: a saturated window (entry 30) drops the
event entirely; a fresh window (entry 0) processes it. -/
theorem rate_limit_counting_window_witness :
    process_message freshUser 30 0 10 1 = (freshUser, 30) ∧
    ((process_message freshUser 0 0 10 1).1).messages_count =
      freshUser.messages_count + 1 :=
  ⟨(rate_limit_counting_window freshUser 30 0 10 1).1 (by decide),
   ((rate_limit_counting_window freshUser 0 0 10 1).2 (by decide)).1⟩

-- ==================== Claim C6 ====================

/-- C6 counterexample: grant expiry is not enforced at every read.  For an
account whose VIP expired at time 0, the display name and the activity-coin
multiplier observed at time 100 treat VIP as inactive, but the daily-reward
claim still pays the 100-coin VIP bonus: the payout on a first claim is
210 coins (100 base + 10 streak bonus + 100 VIP bonus) instead of 110. -/
theorem grant_expiry_daily_counterexample :
    expiredVipUser.vip_expiry = some 0 ∧
    is_vip_expired expiredVipUser 100 = true ∧
    vip_badge expiredVipUser 100 = "" ∧
    vip_coin_active expiredVipUser 100 = false ∧
    daily_vip_bonus expiredVipUser = 100 ∧
    ((daily expiredVipUser 10).2).hubcoins = expiredVipUser.hubcoins + 210 := by
  exact ⟨by decide, by decide, by decide, by decide, by decide, by decide⟩

/-- C6 amended: expiry is enforced lazily at display-name rendering and at
the activity multipliers (an expired VIP shows no badge and does not double
coins, an expired boost does not double XP, an expired title is not
rendered), but the daily-reward VIP bonus reads only the `vip_member` flag
and ignores `vip_expiry`, so an expired VIP still receives the 100-coin
daily bonus. -/
theorem grant_expiry_lazy_reads (u : User) (now t : Int) :
    (u.vip_expiry = some t → t < now →
      vip_badge u now = "" ∧ vip_coin_active u now = false) ∧
    (u.boost_expiry = some t → t < now → boost_multiplier_active u now = false) ∧
    (u.custom_title_expiry = some t → t < now → title_badge u now = "") ∧
    daily_vip_bonus u = (if u.vip_member then 100 else 0) := by
  refine ⟨?_, ?_, ?_, rfl⟩
  · intro he hlt
    have hexp : is_vip_expired u now = true := by
      unfold is_vip_expired
      rw [he]
      simpa using hlt
    constructor
    · simp [vip_badge, hexp]
    · unfold vip_coin_active
      rw [he]
      have hnow : ¬ now < t := by omega
      simp [hnow]
  · intro he hlt
    unfold boost_multiplier_active
    rw [he]
    have hnow : ¬ now < t := by omega
    simp [hnow]
  · intro he hlt
    have hexp : is_title_expired u now = true := by
      unfold is_title_expired
      rw [he]
      simpa using hlt
    simp [title_badge, hexp]

/-- Witness for C6's amended claim on the concrete expired-VIP account. -/
theorem grant_expiry_lazy_reads_witness :
    vip_badge expiredVipUser 100 = "" ∧
    vip_coin_active expiredVipUser 100 = false :=
  (grant_expiry_lazy_reads expiredVipUser 100 0).1 (by decide) (by decide)
